import Mathlib

/-!
Verification of the Flix client (`shotgun/flix.py`) against its
natural-language specification.

The development shallowly embeds the parts of the client that carry the
algorithmic logic:

* the request-signing canonical string of `__fn_sign` (including a faithful
  MD5 implementation, Python's `json.dumps` serialization with its default
  separators, `binascii.hexlify`, and UTF-8 encoding);
* the credential lifecycle of `authenticate` / `__get_token`;
* the marker/panel timeline partitioning of `get_markers_per_panels` and
  `format_panel_for_revision`;
* the media-object resolution of `mo_per_shots` and the export poll loop of
  `get_mo_quicktime_export`.

Modelling conventions: Python runtime errors (KeyError, IndexError,
TypeError, AttributeError) are made explicit with `Except PyErr`; machine
integers are `Nat`/`Int` with explicit `% 2^32` where MD5 overflow matters;
`datetime` instants are abstract `Int` timestamps with one hour = 3600 units
(only their ordering and the fixed 2-hour margin matter to the code under
verification); HTTP collaborators are passed in as explicit environment
functions (`Option Int → Option Asset` for `get_asset`, a list of successive
`get_chain` responses for the poll loop, an `Except ReqErr AuthResp` outcome
for the login POST).  Python dicts that the code iterates or mutates are
modelled as insertion-ordered association lists with unique keys, which is
exactly the observable behaviour of `dict` / `OrderedDict` here.
-/

/-- Python runtime errors that the embedded code can raise. -/
inductive PyErr where
  | keyError
  | indexError
  | typeError
  | attributeError
  | valueError
deriving DecidableEq, Repr

/-! ### MD5 (`hashlib.md5(...).hexdigest()`), bytes as `List Nat` -/

/-- Modulus for 32-bit words. -/
def m32 : Nat := 4294967296

/-- Bitwise complement on 32-bit words. -/
def bnot32 (x : Nat) : Nat := x ^^^ 4294967295

/-- Left rotation of a 32-bit word. -/
def rotl32 (x s : Nat) : Nat := ((x <<< s) ||| (x >>> (32 - s))) % m32

/-- The 64 MD5 sine-derived round constants. -/
def md5K : List Nat :=
  [0xd76aa478, 0xe8c7b756, 0x242070db, 0xc1bdceee,
   0xf57c0faf, 0x4787c62a, 0xa8304613, 0xfd469501,
   0x698098d8, 0x8b44f7af, 0xffff5bb1, 0x895cd7be,
   0x6b901122, 0xfd987193, 0xa679438e, 0x49b40821,
   0xf61e2562, 0xc040b340, 0x265e5a51, 0xe9b6c7aa,
   0xd62f105d, 0x02441453, 0xd8a1e681, 0xe7d3fbc8,
   0x21e1cde6, 0xc33707d6, 0xf4d50d87, 0x455a14ed,
   0xa9e3e905, 0xfcefa3f8, 0x676f02d9, 0x8d2a4c8a,
   0xfffa3942, 0x8771f681, 0x6d9d6122, 0xfde5380c,
   0xa4beea44, 0x4bdecfa9, 0xf6bb4b60, 0xbebfbc70,
   0x289b7ec6, 0xeaa127fa, 0xd4ef3085, 0x04881d05,
   0xd9d4d039, 0xe6db99e5, 0x1fa27cf8, 0xc4ac5665,
   0xf4292244, 0x432aff97, 0xab9423a7, 0xfc93a039,
   0x655b59c3, 0x8f0ccc92, 0xffeff47d, 0x85845dd1,
   0x6fa87e4f, 0xfe2ce6e0, 0xa3014314, 0x4e0811a1,
   0xf7537e82, 0xbd3af235, 0x2ad7d2bb, 0xeb86d391]

/-- The 64 MD5 per-round left-rotation amounts. -/
def md5S : List Nat :=
  [7, 12, 17, 22, 7, 12, 17, 22, 7, 12, 17, 22, 7, 12, 17, 22,
   5, 9, 14, 20, 5, 9, 14, 20, 5, 9, 14, 20, 5, 9, 14, 20,
   4, 11, 16, 23, 4, 11, 16, 23, 4, 11, 16, 23, 4, 11, 16, 23,
   6, 10, 15, 21, 6, 10, 15, 21, 6, 10, 15, 21, 6, 10, 15, 21]

/-- Little-endian decoding of a 64-byte chunk into sixteen 32-bit words. -/
def chunkWords : List Nat → List Nat
  | b0 :: b1 :: b2 :: b3 :: rest =>
    (b0 + 256 * b1 + 65536 * b2 + 16777216 * b3) :: chunkWords rest
  | _ => []

/-- One MD5 round on the state `(a, b, c, d)`. -/
def md5Round (M : List Nat) (st : Nat × Nat × Nat × Nat) (i : Nat) :
    Nat × Nat × Nat × Nat :=
  let (a, b, c, d) := st
  let fg : Nat × Nat :=
    if i < 16 then ((b &&& c) ||| (bnot32 b &&& d), i)
    else if i < 32 then ((d &&& b) ||| (bnot32 d &&& c), (5 * i + 1) % 16)
    else if i < 48 then (b ^^^ c ^^^ d, (3 * i + 5) % 16)
    else (c ^^^ (b ||| bnot32 d), (7 * i) % 16)
  let f := (fg.1 + a + md5K.getD i 0 + M.getD fg.2 0) % m32
  (d, (b + rotl32 f (md5S.getD i 0)) % m32, b, c)

/-- Compression of one 64-byte chunk into the running MD5 state. -/
def md5Chunk (st : Nat × Nat × Nat × Nat) (chunk : List Nat) :
    Nat × Nat × Nat × Nat :=
  let M := chunkWords chunk
  let r := (List.range 64).foldl (md5Round M) st
  ((st.1 + r.1) % m32, (st.2.1 + r.2.1) % m32,
   (st.2.2.1 + r.2.2.1) % m32, (st.2.2.2 + r.2.2.2) % m32)

/-- Splitting a padded message into 64-byte chunks (the fuel argument makes
the recursion structural; it is called with the message length). -/
def splitChunks : Nat → List Nat → List (List Nat)
  | 0, _ => []
  | _, [] => []
  | fuel + 1, bs => bs.take 64 :: splitChunks fuel (bs.drop 64)

/-- MD5 padding: `0x80`, zeros to 56 mod 64, then the bit length as eight
little-endian bytes (mod 2^64). -/
def md5Pad (msg : List Nat) : List Nat :=
  let L := msg.length
  let padLen := (120 - ((L + 1) % 64)) % 64
  msg ++ [128] ++ List.replicate padLen 0 ++
    ((List.range 8).map (fun j => (((8 * L) % 18446744073709551616) >>> (8 * j)) % 256))

/-- Little-endian byte serialization of a 32-bit word. -/
def wordLEBytes (w : Nat) : List Nat :=
  [w % 256, w / 256 % 256, w / 65536 % 256, w / 16777216 % 256]

/-- The 16-byte MD5 digest of a byte string. -/
def md5Bytes (msg : List Nat) : List Nat :=
  let padded := md5Pad msg
  let r := (splitChunks padded.length padded).foldl md5Chunk
    (0x67452301, 0xefcdab89, 0x98badcfe, 0x10325476)
  wordLEBytes r.1 ++ wordLEBytes r.2.1 ++ wordLEBytes r.2.2.1 ++ wordLEBytes r.2.2.2

/-- Lower-case hexadecimal digit. -/
def hexDigit (n : Nat) : Char :=
  if n < 10 then Char.ofNat (48 + n) else Char.ofNat (87 + n)

/-- Lower-case hexadecimal rendering of a byte string. -/
def bytesToHexChars : List Nat → List Char
  | [] => []
  | b :: t => hexDigit (b / 16 % 16) :: hexDigit (b % 16) :: bytesToHexChars t

/-- Embedding of `hashlib.md5(bs).hexdigest()`. -/
def md5hex (msg : List Nat) : String := String.mk (bytesToHexChars (md5Bytes msg))

/-- Embedding of `binascii.hexlify(bs)`: the ASCII bytes of the lower-case
hex rendering. -/
def hexlify (bs : List Nat) : List Nat := (bytesToHexChars bs).map Char.toNat

/-! ### UTF-8 (`str.encode('utf-8')`) -/

/-- UTF-8 encoding of a single character. -/
def utf8Char (c : Char) : List Nat :=
  let n := c.toNat
  if n < 128 then [n]
  else if n < 2048 then [192 ||| (n >>> 6), 128 ||| (n &&& 63)]
  else if n < 65536 then
    [224 ||| (n >>> 12), 128 ||| ((n >>> 6) &&& 63), 128 ||| (n &&& 63)]
  else
    [240 ||| (n >>> 18), 128 ||| ((n >>> 12) &&& 63),
     128 ||| ((n >>> 6) &&& 63), 128 ||| (n &&& 63)]

/-- Embedding of `s.encode('utf-8')`. -/
def utf8Encode (s : String) : List Nat := (s.data.map utf8Char).flatten

/-! ### Python `json.dumps` on JSON-like values -/

/-- JSON-like Python values appearing as request content. -/
inductive JVal where
  | jnull
  | jbool (b : Bool)
  | jnum (n : Int)
  | jstr (s : String)
  | jarr (xs : List JVal)
  | jobj (kvs : List (String × JVal))

/-- Four lower-case hex digits. -/
def hex4 (n : Nat) : List Char :=
  [hexDigit (n / 4096 % 16), hexDigit (n / 256 % 16),
   hexDigit (n / 16 % 16), hexDigit (n % 16)]

/-- JSON string escaping as `json.dumps` performs it with its default
`ensure_ascii=True` (named escapes, `\uXXXX` for other controls and all
non-ASCII characters, surrogate pairs beyond the BMP). -/
def jescapeChar (c : Char) : List Char :=
  let n := c.toNat
  if c = '"' then ['\\', '"']
  else if c = '\\' then ['\\', '\\']
  else if n = 10 then ['\\', 'n']
  else if n = 9 then ['\\', 't']
  else if n = 13 then ['\\', 'r']
  else if n = 8 then ['\\', 'b']
  else if n = 12 then ['\\', 'f']
  else if n < 32 then '\\' :: 'u' :: hex4 n
  else if n < 128 then [c]
  else if n < 65536 then '\\' :: 'u' :: hex4 n
  else ('\\' :: 'u' :: hex4 (55296 + ((n - 65536) >>> 10))) ++
       ('\\' :: 'u' :: hex4 (56320 + ((n - 65536) &&& 1023)))

/-- A JSON string literal with quotes and escapes. -/
def jstring (s : String) : String :=
  String.mk ('"' :: (s.data.map jescapeChar).flatten ++ ['"'])

mutual

/-- Serialization of a JSON value with the given item and key separators. -/
def jdumpSep (isep ksep : String) : JVal → String
  | .jnull => "null"
  | .jbool b => if b then "true" else "false"
  | .jnum n => toString n
  | .jstr s => jstring s
  | .jarr xs => "[" ++ String.intercalate isep (jdumpList isep ksep xs) ++ "]"
  | .jobj kvs => "\x7b" ++ String.intercalate isep (jdumpObj isep ksep kvs) ++ "\x7d"

/-- Serialization of the elements of a JSON array. -/
def jdumpList (isep ksep : String) : List JVal → List String
  | [] => []
  | v :: t => jdumpSep isep ksep v :: jdumpList isep ksep t

/-- Serialization of the key/value pairs of a JSON object. -/
def jdumpObj (isep ksep : String) : List (String × JVal) → List String
  | [] => []
  | (k, v) :: t => (jstring k ++ ksep ++ jdumpSep isep ksep v) :: jdumpObj isep ksep t

end

/-- Embedding of Python's `json.dumps(v)` with its DEFAULT separators
`(', ', ': ')` — this is what `__fn_sign` calls. -/
def jsonDumps (v : JVal) : String := jdumpSep ", " ": " v

/-- Compact JSON serialization with separators `(',', ':')` — this is what
the specification's words "compact JSON" denote; `__fn_sign` does NOT use
it.  Kept for comparison with the source embedding. -/
def jsonDumpsCompact (v : JVal) : String := jdumpSep "," ":" v

/-! ### The canonical string of `__fn_sign` (flix.py lines 675-694) -/

/-- The possible types of the `content` argument of `__fn_sign` at its call
sites: `None` or a JSON-like dict; `str` and `bytes` are the other two
branches the source tests for. -/
inductive PyContent where
  | pynone
  | pstr (s : String)
  | pbytes (bs : List Nat)
  | pdict (kvs : List (String × JVal))

/-- Python truthiness of the `content` argument (`if content:`): `None`,
`''`, `b''` and the empty dict are falsy. -/
def contentTruthy : PyContent → Bool
  | .pynone => false
  | .pstr s => !s.isEmpty
  | .pbytes bs => !bs.isEmpty
  | .pdict kvs => !kvs.isEmpty

/-- The `content_md5` computation of `__fn_sign`.  Note that on truthy `str`
content the source calls `hashlib.md5` on an unencoded `str`, which raises
`TypeError` in Python 3; on truthy `bytes` it hexlifies before hashing; on a
truthy dict it hashes the UTF-8 bytes of `json.dumps` (default separators). -/
def contentMd5 : PyContent → Except PyErr String
  | c =>
    if contentTruthy c then
      match c with
      | .pstr _ => .error .typeError
      | .pbytes bs => .ok (md5hex (hexlify bs))
      | .pdict kvs => .ok (md5hex (utf8Encode (jsonDumps (.jobj kvs))))
      | .pynone => .ok ""
    else .ok ""

/-- The characters of a string before the first occurrence of `stop`. -/
def takeBefore (stop : Char) : List Char → List Char
  | [] => []
  | c :: t => if c = stop then [] else c :: takeBefore stop t

/-- Embedding of Python's `s.split(stop)[0]`. -/
def splitHead (stop : Char) (s : String) : String := String.mk (takeBefore stop s.data)

/-- ASCII upper-casing, the effect of `str.upper()` on the ASCII method
names used by the client. -/
def asciiUpper (s : String) : String :=
  String.mk (s.data.map (fun c =>
    if 97 ≤ c.toNat ∧ c.toNat ≤ 122 then Char.ofNat (c.toNat - 32) else c))

/-- Embedding of the `raw_string` canonical-string construction of
`__fn_sign` (flix.py lines 675-694): method, optional content hash and
content type, truncated ISO timestamp with a literal `Z`, and the URL with
any query string stripped.  The subsequent HMAC-SHA256/base64 step (lines
695-702) consumes this string unchanged and is not needed by any claim. -/
def fn_sign_raw (http_method : String) (content : PyContent)
    (content_type : String) (dtIso : String) (url : String) :
    Except PyErr String :=
  match contentMd5 content with
  | .error e => .error e
  | .ok content_md5 =>
    let raw := asciiUpper http_method ++ "\n"
    let raw :=
      if content_md5 ≠ "" then raw ++ content_md5 ++ "\n" ++ content_type ++ "\n"
      else raw ++ "\n\n"
    let raw := raw ++ splitHead '.' dtIso ++ "Z" ++ "\n"
    .ok (raw ++ splitHead '?' url)

/-- Modelled from the spec's words for claim C2 (spec §4.1 step 2): the
canonical string with dict content hashed as COMPACT JSON and string content
"hashed directly".  This follows the specification, not the source, and is
compared against `fn_sign_raw`. -/
def fn_sign_raw_specClaim (http_method : String) (content : PyContent)
    (content_type : String) (dtIso : String) (url : String) : String :=
  let content_md5 :=
    match content with
    | .pynone => ""
    | .pstr s => if s.isEmpty then "" else md5hex (utf8Encode s)
    | .pbytes bs => if bs.isEmpty then "" else md5hex (hexlify bs)
    | .pdict kvs =>
      if kvs.isEmpty then "" else md5hex (utf8Encode (jsonDumpsCompact (.jobj kvs)))
  let raw := asciiUpper http_method ++ "\n"
  let raw :=
    if content_md5 ≠ "" then raw ++ content_md5 ++ "\n" ++ content_type ++ "\n"
    else raw ++ "\n\n"
  let raw := raw ++ splitHead '.' dtIso ++ "Z" ++ "\n"
  raw ++ splitHead '?' url

/-! ### Credential lifecycle (`authenticate`, `reset`, `__get_token`) -/

/-- Outcome classes of the login POST that `requests` reports as a
`RequestException`: a network failure or (via `raise_for_status`) a non-2xx
HTTP status. -/
inductive ReqErr where
  | network
  | httpStatus (code : Nat)
deriving DecidableEq, Repr

/-- A well-formed body of a successful `/authenticate` response.  The
`expiry_date` string is modelled by the abstract instant `expiry_epoch` that
parsing it yields (`datetime` instants are `Int` timestamps here). -/
structure AuthResp where
  id : String
  secret_access_key : String
  expiry_epoch : Int
deriving DecidableEq, Repr

/-- The mutable session fields of the `flix` object. -/
structure Session where
  hostname : Option String
  login : Option String
  password : Option String
  key : Option String
  secret : Option String
  expiry : Option Int
deriving DecidableEq, Repr

/-- Embedding of `reset` (flix.py lines 445-453). -/
def resetSession : Session :=
  { hostname := none, login := none, password := none,
    key := none, secret := none, expiry := none }

/-- One hour of the abstract timestamp unit. -/
def hour : Int := 3600

/-- Embedding of `authenticate` (flix.py lines 26-61).  The argument `resp`
is the outcome of the login POST.  On a `RequestException` the handler
returns `None` before any field assignment, so the session is unchanged; on
success the hostname/login/password and the new key, secret and parsed
expiry are stored.  Passing `None` for hostname, login or password raises a
`TypeError` (string concatenation with `None`) before the request is made. -/
def authenticate (s : Session) (hostname login password : Option String)
    (resp : Except ReqErr AuthResp) : Except PyErr (Option AuthResp × Session) :=
  match hostname, login, password with
  | some hn, some lg, some pw =>
    match resp with
    | .error _ => .ok (none, s)
    | .ok r =>
      .ok (some r,
        { hostname := some hn, login := some lg, password := some pw,
          key := some r.id, secret := some r.secret_access_key,
          expiry := some r.expiry_epoch })
  | _, _, _ => .error .typeError

/-- The staleness test of `__get_token` (flix.py lines 630-631): any of the
three credential fields missing, or `now + 2h > expiry`. -/
def needsRefresh (s : Session) (now : Int) : Bool :=
  match s.key, s.secret, s.expiry with
  | some _, some _, some e => decide (now + 2 * hour > e)
  | _, _, _ => true

/-- The re-authentication path of `__get_token` (flix.py lines 632-642).  If
`authenticate` returns `None` (login failure) the subsequent subscript
`authentificationToken['id']` raises a `TypeError`. -/
def get_token_refresh (s : Session) (resp : Except ReqErr AuthResp) :
    Except PyErr (String × String × Session) :=
  match authenticate s s.hostname s.login s.password resp with
  | .error e => .error e
  | .ok (none, _) => .error .typeError
  | .ok (some r, s1) =>
    .ok (r.id, r.secret_access_key,
      { s1 with key := some r.id, secret := some r.secret_access_key,
                expiry := some r.expiry_epoch })

/-- Embedding of `__get_token` (flix.py lines 623-642).  The second
component records whether the re-authentication path was taken. -/
def get_token (s : Session) (now : Int) (resp : Except ReqErr AuthResp) :
    Except PyErr (String × String × Session) × Bool :=
  match s.key, s.secret, s.expiry with
  | some k, some sec, some e =>
    if now + 2 * hour > e then (get_token_refresh s resp, true)
    else (.ok (k, sec, s), false)
  | _, _, _ => (get_token_refresh s resp, true)

/-! ### Panels, markers and the timeline partition
(`format_panel_for_revision`, `get_markers_per_panels`) -/

/-- The `asset` sub-dict of a panel (`p.get('asset')`), carrying the asset
id used for media-object resolution. -/
structure AssetRef where
  asset_id : Option Int
deriving DecidableEq, Repr

/-- A panel dict as served by the API, with the fields the client reads.
Optional fields model `dict.get` returning `None` when absent; `duration`
is kept total because `get_markers_per_panels` sums it numerically. -/
structure Panel where
  dialogue : Option String
  duration : Int
  panel_id : Option Int
  revision_number : Option Int
  asset : Option AssetRef
deriving DecidableEq, Repr

/-- A formatted (revisioned) panel as built by `format_panel_for_revision`:
the same payload plus the `pos` position in the full timeline. -/
structure FPanel where
  dialogue : Option String
  duration : Int
  id : Option Int
  revision_number : Option Int
  asset : Option AssetRef
  pos : Nat
deriving DecidableEq, Repr

/-- Embedding of `format_panel_for_revision` (flix.py lines 569-588). -/
def format_panel_for_revision (panel : Panel) (pos : Nat) : FPanel :=
  { dialogue := panel.dialogue,
    duration := panel.duration,
    id := panel.panel_id,
    revision_number := panel.revision_number,
    asset := panel.asset,
    pos := pos }

/-- Python list indexing with negative-index wrap-around: `xs[i]` succeeds
for `-len ≤ i < len` and raises `IndexError` otherwise. -/
def pyIndex {α : Type} (xs : List α) (i : Int) : Except PyErr α :=
  let j : Int := if i < 0 then i + xs.length else i
  if j < 0 then .error .indexError
  else
    match xs[j.toNat]? with
    | some x => .ok x
    | none => .error .indexError

/-- Lookup in the markers `OrderedDict` (`markers[k]`), modelled as an
association list with unique keys in key order. -/
def dictGet (d : List (Int × String)) (k : Int) : Except PyErr String :=
  match d.find? (fun kv => kv.1 == k) with
  | some kv => .ok kv.2
  | none => .error .keyError

/-- Lookup in the `panels_per_markers` dict, `None` when the key is absent. -/
def pdGet? (d : List (String × List FPanel)) (k : String) : Option (List FPanel) :=
  (d.find? (fun kv => kv.1 == k)).map (fun kv => kv.2)

/-- Assignment `d[k] = v` on the `panels_per_markers` dict: overwrite in
place if present, append otherwise (insertion order preserved). -/
def pdSet (d : List (String × List FPanel)) (k : String) (v : List FPanel) :
    List (String × List FPanel) :=
  if (d.find? (fun kv => kv.1 == k)).isSome then
    d.map (fun kv => if kv.1 == k then (k, v) else kv)
  else d ++ [(k, v)]

/-- The statement `d[k].append(p)`: raises `KeyError` when `k` is absent. -/
def pdAppend (d : List (String × List FPanel)) (k : String) (p : FPanel) :
    Except PyErr (List (String × List FPanel)) :=
  match pdGet? d k with
  | none => .error .keyError
  | some vs => .ok (pdSet d k (vs ++ [p]))

/-- The `for i, p in enumerate(panels)` loop body of `get_markers_per_panels`
(flix.py lines 605-620), with state `(panels_per_markers, panel_in,
marker_i, i)`.  The source's three-way `if`/`elif`/`elif` over
`markers_keys[marker_i]` versus `panel_in` is reproduced branch for branch,
including the Python `-1` wrap-around of `markers_keys[marker_i - 1]` when
`marker_i == 0`. -/
def gmppLoop (markers : List (Int × String)) (keys : List Int) :
    List Panel → List (String × List FPanel) → Int → Nat → Nat →
    Except PyErr (List (String × List FPanel))
  | [], ppm, _, _, _ => .ok ppm
  | p :: rest, ppm, panel_in, marker_i, i =>
    match pyIndex keys (marker_i : Int) with
    | .error e => .error e
    | .ok kmi =>
      if kmi == panel_in then
        match dictGet markers kmi with
        | .error e => .error e
        | .ok name =>
          match pdAppend (pdSet ppm name []) name (format_panel_for_revision p i) with
          | .error e => .error e
          | .ok ppm1 =>
            let mi1 := if keys.length > marker_i + 1 then marker_i + 1 else marker_i
            gmppLoop markers keys rest ppm1 (panel_in + p.duration) mi1 (i + 1)
      else if kmi > panel_in then
        match pyIndex keys ((marker_i : Int) - 1) with
        | .error e => .error e
        | .ok kprev =>
          match dictGet markers kprev with
          | .error e => .error e
          | .ok name =>
            match pdAppend ppm name (format_panel_for_revision p i) with
            | .error e => .error e
            | .ok ppm1 =>
              gmppLoop markers keys rest ppm1 (panel_in + p.duration) marker_i (i + 1)
      else if keys.length - 1 == marker_i then
        match dictGet markers kmi with
        | .error e => .error e
        | .ok name =>
          let ppm0 := if (pdGet? ppm name).isNone then pdSet ppm name [] else ppm
          match pdAppend ppm0 name (format_panel_for_revision p i) with
          | .error e => .error e
          | .ok ppm1 =>
            gmppLoop markers keys rest ppm1 (panel_in + p.duration) marker_i (i + 1)
      else gmppLoop markers keys rest ppm (panel_in + p.duration) marker_i (i + 1)

/-- Embedding of `get_markers_per_panels` (flix.py lines 590-621).  The
`markers` argument is the `OrderedDict` produced by `get_markers`, as the
association list of its `(start, name)` items in key order. -/
def get_markers_per_panels (markers : List (Int × String)) (panels : List Panel) :
    Except PyErr (List (String × List FPanel)) :=
  gmppLoop markers (markers.map Prod.fst) panels [] 0 0 0

/-! ### Assets, media objects, `mo_per_shots` and the export poll loop -/

/-- A media object entry of an asset (`name` and `id` read with `.get`). -/
structure MediaObject where
  name : Option String
  mid : Option Int
deriving DecidableEq, Repr

/-- An asset's media-object collections.  `none` models a missing
`media_objects` sub-dict or a missing `artwork`/`thumbnail` key (both make
the source's unguarded `.get(...)` chain yield `None`). -/
structure Asset where
  artwork : Option (List MediaObject)
  thumbnail : Option (List MediaObject)
deriving DecidableEq, Repr

/-- One row appended to the per-shot `artwork`/`thumbnails` lists by
`mo_per_shots`. -/
structure MoEntry where
  name : Option String
  id : Option Int
  revision_number : Option Int
  pos : Nat
  mo : Option Int
deriving DecidableEq, Repr

/-- The per-panel body of `mo_per_shots` (flix.py lines 482-502): resolve
the panel's asset through `get_asset` (the environment `ga`); `None` from
`get_asset` triggers the early `return None, False`; a missing `artwork` or
`thumbnail` key makes `None[0]` raise `TypeError`, an empty list raises
`IndexError`; a panel without an `asset` dict raises `AttributeError`
(`None.get`). -/
def moPanel (ga : Option Int → Option Asset) (p : FPanel) :
    Except PyErr (Option (MoEntry × MoEntry)) :=
  match p.asset with
  | none => .error .attributeError
  | some ref =>
    match ga ref.asset_id with
    | none => .ok none
    | some a =>
      match a.artwork with
      | none => .error .typeError
      | some [] => .error .indexError
      | some (art :: _) =>
        match a.thumbnail with
        | none => .error .typeError
        | some [] => .error .indexError
        | some (th :: _) =>
          .ok (some
            ({ name := art.name, id := p.id, revision_number := p.revision_number,
               pos := p.pos, mo := art.mid },
             { name := th.name, id := p.id, revision_number := p.revision_number,
               pos := p.pos, mo := th.mid }))

/-- The inner panel loop of `mo_per_shots` for one shot, accumulating the
shot's `artwork` and `thumbnails` lists; `ok none` propagates the early
`return None, False`. -/
def moShot (ga : Option Int → Option Asset) :
    List FPanel → Except PyErr (Option (List MoEntry × List MoEntry))
  | [] => .ok (some ([], []))
  | p :: rest =>
    match moPanel ga p with
    | .error e => .error e
    | .ok none => .ok none
    | .ok (some (art, th)) =>
      match moShot ga rest with
      | .error e => .error e
      | .ok none => .ok none
      | .ok (some (arts, ths)) => .ok (some (art :: arts, th :: ths))

/-- Embedding of `mo_per_shots` (flix.py lines 455-503): iterate the shots
of `panels_per_markers` in insertion order; any failed asset resolution
returns `(None, False)` with no mapping; full success returns the mapping
and `True`. -/
def mo_per_shots (ga : Option Int → Option Asset) :
    List (String × List FPanel) →
    Except PyErr (Option (List (String × (List MoEntry × List MoEntry))) × Bool)
  | [] => .ok (some [], true)
  | (shot_name, panels) :: rest =>
    match moShot ga panels with
    | .error e => .error e
    | .ok none => .ok (none, false)
    | .ok (some pair) =>
      match mo_per_shots ga rest with
      | .error e => .error e
      | .ok (none, b) => .ok (none, b)
      | .ok (some m, b) => .ok (some ((shot_name, pair) :: m), b)

/-- One `get_chain` response: the `status` string and the
`results.assetID` field, both read with `.get`. -/
structure ChainRes where
  status : Option String
  assetID : Option Int
deriving DecidableEq, Repr

/-- The `while True` poll loop of `get_mo_quicktime_export` (flix.py lines
535-551).  `polls` lists the successive `get_chain` results (`none` for a
failed call; an exhausted list behaves like a failed call).  Besides the
Python return value, the result records the retry indices passed to the
`on_retry` callback and the asset ids passed to `get_asset`, in order, so
that callback and resolution behaviour are part of the observable result. -/
def pollLoop (ga : Option Int → Option Asset) :
    List (Option ChainRes) → Nat →
    Except PyErr (Option Int) × List Nat × List (Option Int)
  | [], _ => (.ok none, [], [])
  | none :: _, _ => (.ok none, [], [])
  | some res :: rest, retry =>
    if res.status = some "errored" ∨ res.status = some "timed out" then
      (.ok none, [], [])
    else if res.status = some "in progress" then
      let r := pollLoop ga rest (retry + 1)
      (r.1, retry :: r.2.1, r.2.2)
    else if res.status = some "completed" then
      match ga res.assetID with
      | none => (.ok none, [], [res.assetID])
      | some a =>
        match a.artwork.getD [] with
        | [] => (.error .indexError, [], [res.assetID])
        | mo :: _ => (.ok mo.mid, [], [res.assetID])
    else
      pollLoop ga rest retry

/-- Embedding of `get_mo_quicktime_export` after job submission: the poll
loop started with `retry = 0`.  The submission (`start_quicktime_export`)
only produces the chain id whose successive statuses the environment
reports through `polls`. -/
def get_mo_quicktime_export (ga : Option Int → Option Asset)
    (polls : List (Option ChainRes)) :
    Except PyErr (Option Int) × List Nat × List (Option Int) :=
  pollLoop ga polls 0

/-! ### Claims -/

/-- Claim C9: for every panel object and every position `pos`, the result of
`format_panel_for_revision(panel, pos)` has its `pos` field equal to the
`pos` argument, and every other output field (dialogue, duration, id,
revision_number, asset) equals the corresponding field of the source panel,
unchanged. -/
theorem format_panel_roundtrip_c9 (p : Panel) (pos : Nat) :
    (format_panel_for_revision p pos).pos = pos ∧
    (format_panel_for_revision p pos).dialogue = p.dialogue ∧
    (format_panel_for_revision p pos).duration = p.duration ∧
    (format_panel_for_revision p pos).id = p.panel_id ∧
    (format_panel_for_revision p pos).revision_number = p.revision_number ∧
    (format_panel_for_revision p pos).asset = p.asset :=
  ⟨rfl, rfl, rfl, rfl, rfl, rfl⟩

/-- Claim C10: `get_markers_per_panels` requires at least one marker: for
every non-empty panel list, calling it with an empty marker mapping fails
with an out-of-range index error on the marker key list rather than
returning a mapping. -/
theorem gmpp_empty_markers_c10 (p : Panel) (ps : List Panel) :
    get_markers_per_panels [] (p :: ps) = .error .indexError := by
  simp [get_markers_per_panels, gmppLoop, pyIndex]

/-- Claim C8: if the login request made by `authenticate` fails with a
network error or a non-2xx status, the call reports failure (returns `None`)
and every previously held session field is left exactly as it was. -/
theorem authenticate_failure_keeps_state_c8 (s : Session) (hn lg pw : String)
    (e : ReqErr) :
    authenticate s (some hn) (some lg) (some pw) (.error e) = .ok (none, s) := rfl

/-- Claim C1: `__get_token` triggers re-authentication if and only if no
credential is held (a missing key, secret or expiry) or `now + 2h` exceeds
the expiry; in particular a credential expiring at `now + 1h` triggers a
refresh and one expiring at `now + 3h` is returned as-is with no refresh. -/
theorem get_token_refresh_iff_c1 (s : Session) (now : Int)
    (resp : Except ReqErr AuthResp) :
    ((get_token s now resp).2 = true ↔
      (s.key = none ∨ s.secret = none ∨ s.expiry = none ∨
        ∃ e, s.expiry = some e ∧ now + 2 * hour > e)) ∧
    (∀ hn lg pw k sec,
      (get_token ⟨hn, lg, pw, some k, some sec, some (now + hour)⟩ now resp).2 = true) ∧
    (∀ hn lg pw k sec,
      get_token ⟨hn, lg, pw, some k, some sec, some (now + 3 * hour)⟩ now resp =
        (.ok (k, sec, ⟨hn, lg, pw, some k, some sec, some (now + 3 * hour)⟩), false)) := by
  refine ⟨?_, ?_, ?_⟩
  · obtain ⟨hn, lg, pw, k, sec, ex⟩ := s
    cases k <;> cases sec <;> cases ex <;> simp [get_token]
    rename_i k sec e
    by_cases h : now + 2 * hour > e <;> simp [h]
  · intro hn lg pw k sec
    have h : now + 2 * hour > now + hour := by simp [hour]
    simp [get_token, h]
  · intro hn lg pw k sec
    have h : ¬(now + 2 * hour > now + 3 * hour) := by simp [hour]
    simp [get_token, h]

/-- Claim C4: with ordered markers start 0 named "A" and start 3 named "B",
and five panels of duration 1 each, `get_markers_per_panels` assigns the
panels at cumulative timeline positions 0, 1 and 2 to group "A" and the
panels at positions 3 and 4 to group "B", each formatted panel carrying as
`pos` its index in the original full sequence. -/
theorem gmpp_two_markers_assignment_c4
    (d0 d1 d2 d3 d4 : Option String) (i0 i1 i2 i3 i4 r0 r1 r2 r3 r4 : Option Int)
    (a0 a1 a2 a3 a4 : Option AssetRef) :
    get_markers_per_panels [(0, "A"), (3, "B")]
      [⟨d0, 1, i0, r0, a0⟩, ⟨d1, 1, i1, r1, a1⟩, ⟨d2, 1, i2, r2, a2⟩,
       ⟨d3, 1, i3, r3, a3⟩, ⟨d4, 1, i4, r4, a4⟩] =
      .ok [("A", [⟨d0, 1, i0, r0, a0, 0⟩, ⟨d1, 1, i1, r1, a1, 1⟩,
                  ⟨d2, 1, i2, r2, a2, 2⟩]),
           ("B", [⟨d3, 1, i3, r3, a3, 3⟩, ⟨d4, 1, i4, r4, a4, 4⟩])] := by
  simp [get_markers_per_panels, gmppLoop, pyIndex, dictGet, pdGet?, pdSet, pdAppend,
        format_panel_for_revision]

deriving instance DecidableEq for Except

/-- Python `xs[-1]` on a non-empty list succeeds and yields an element of
the list. -/
theorem pyIndex_last_mem {α : Type} (x : α) (xs : List α) :
    ∃ v, pyIndex (x :: xs) (-1) = .ok v ∧ v ∈ x :: xs := by
  have hlt : xs.length < (x :: xs).length := by simp
  refine ⟨(x :: xs)[xs.length], ?_, List.getElem_mem hlt⟩
  have hneg : ((-1 : Int) < 0) = True := by norm_num
  have hj : ((-1 : Int) + ((x :: xs).length : Int)).toNat = xs.length := by
    simp only [List.length_cons]
    omega
  have hge : ¬((-1 : Int) + ((x :: xs).length : Int) < 0) := by
    simp only [List.length_cons]
    omega
  simp only [pyIndex, hneg, if_true, hge, if_false, hj]
  rw [List.getElem?_eq_getElem hlt]

/-- Looking a key that occurs in a marker dict up succeeds. -/
theorem dictGet_mem_ok (d : List (Int × String)) (k : Int)
    (hk : k ∈ d.map Prod.fst) : ∃ v, dictGet d k = .ok v := by
  obtain ⟨kv, hkv, hfst⟩ := List.mem_map.mp hk
  have hsome : (d.find? (fun kv => kv.1 == k)).isSome := by
    rw [List.find?_isSome]
    exact ⟨kv, hkv, by simp [hfst]⟩
  obtain ⟨kv1, hkv1⟩ := Option.isSome_iff_exists.mp hsome
  exact ⟨kv1.2, by simp [dictGet, hkv1]⟩

/-- Claim C5 (amended): for every marker list whose first marker starts at a
strictly positive timeline position and every non-empty panel list,
`get_markers_per_panels` raises a `KeyError` at the very first panel — the
append target `panels_per_markers[markers[markers_keys[-1]]]` does not exist
yet — so no mapping is returned at all, and in particular the panels lying
before the first marker's start are never assigned to any shot group. -/
theorem gmpp_positive_first_marker_c5 (k : Int) (n : String)
    (ms : List (Int × String)) (p : Panel) (ps : List Panel) (hk : 0 < k) :
    get_markers_per_panels ((k, n) :: ms) (p :: ps) = .error .keyError := by
  have h0 : pyIndex (((k, n) :: ms).map Prod.fst) ((0 : Nat) : Int) = .ok k := by
    simp [pyIndex]
  have hne : (k == (0 : Int)) = false := by
    simp only [beq_eq_false_iff_ne, ne_eq]
    omega
  obtain ⟨v, hv, hvmem⟩ := pyIndex_last_mem k (ms.map Prod.fst)
  obtain ⟨nm, hnm⟩ := dictGet_mem_ok ((k, n) :: ms) v (by simpa using hvmem)
  have happ : pdAppend [] nm (format_panel_for_revision p 0) = .error .keyError := by
    simp [pdAppend, pdGet?]
  simp only [get_markers_per_panels, gmppLoop, h0, hne, List.map_cons] at *
  rw [if_neg (by simp [hne]), if_pos (by omega)]
  simp only [Int.natCast_zero, zero_sub] at *
  rw [hv]
  simp only [hnm, happ]

/-- Counterexample for claim C5 as stated: with the single marker start 3
named "B" and one panel lying before it, `get_markers_per_panels` does not
return any mapping that omits the panel — it returns no mapping at all,
raising `KeyError`. -/
theorem gmpp_positive_first_marker_c5_counterexample :
    get_markers_per_panels [(3, "B")] [⟨none, 1, none, none, none⟩] =
      .error .keyError := by
  decide

/-- Witness for the amended claim C5 at a concrete input. -/
theorem gmpp_positive_first_marker_c5_witness :
    get_markers_per_panels [(2, "A"), (4, "B")]
      [⟨some "d", 1, some 10, some 1, none⟩] = .error .keyError :=
  gmpp_positive_first_marker_c5 2 "A" [(4, "B")] ⟨some "d", 1, some 10, some 1, none⟩
    [] (by decide)

/-- Claim C3: for a job whose successively polled statuses are in-progress,
in-progress, completed, the export poll loop of `get_mo_quicktime_export`
invokes the caller-supplied `on_retry` callback exactly twice, with retry
indices 0 and 1 in that order, then fetches the completed job's result asset
and returns the id of its first artwork media object. -/
theorem pollLoop_two_retries_c3 (ga : Option Int → Option Asset)
    (x y aid : Option Int) (a : Asset) (mo : MediaObject)
    (mos : List MediaObject) (rest : List (Option ChainRes))
    (hga : ga aid = some a) (hart : a.artwork = some (mo :: mos)) :
    get_mo_quicktime_export ga
      (some ⟨some "in progress", x⟩ :: some ⟨some "in progress", y⟩ ::
        some ⟨some "completed", aid⟩ :: rest) =
      (.ok mo.mid, [0, 1], [aid]) := by
  simp [get_mo_quicktime_export, pollLoop, hga, hart]

/-- Concrete asset environment used by the C3 witness. -/
def gaC3 : Option Int → Option Asset := fun o =>
  if o = some 42 then
    some { artwork := some [{ name := some "art", mid := some 7 }],
           thumbnail := some [{ name := some "th", mid := some 8 }] }
  else none

/-- Witness for claim C3 at a concrete input. -/
theorem pollLoop_two_retries_c3_witness :
    get_mo_quicktime_export gaC3
      (some ⟨some "in progress", none⟩ :: some ⟨some "in progress", none⟩ ::
        some ⟨some "completed", some 42⟩ :: []) =
      (.ok (some 7), [0, 1], [some 42]) :=
  pollLoop_two_retries_c3 gaC3 none none (some 42)
    { artwork := some [{ name := some "art", mid := some 7 }],
      thumbnail := some [{ name := some "th", mid := some 8 }] }
    { name := some "art", mid := some 7 } [] [] (by decide) (by decide)

/-- Claim C7: whenever a polled job status is errored or timed-out, the
export poll loop terminates immediately with a failure result (`None`),
without invoking the retry callback for that poll and without ever calling
asset resolution for that job (the recorded callback and asset-fetch traces
from that point are both empty). -/
theorem pollLoop_terminal_error_c7 (ga : Option Int → Option Asset)
    (res : ChainRes) (rest : List (Option ChainRes)) (retry : Nat)
    (h : res.status = some "errored" ∨ res.status = some "timed out") :
    pollLoop ga (some res :: rest) retry = (.ok none, [], []) := by
  simp only [pollLoop]
  rw [if_pos h]

/-- Concrete asset environment with no resolvable asset. -/
def gaNone : Option Int → Option Asset := fun _ => none

/-- Witness for claim C7 at a concrete input. -/
theorem pollLoop_terminal_error_c7_witness :
    pollLoop gaNone [some ⟨some "errored", some 1⟩, some ⟨some "completed", some 1⟩] 0 =
      (.ok none, [], []) :=
  pollLoop_terminal_error_c7 gaNone ⟨some "errored", some 1⟩
    [some ⟨some "completed", some 1⟩] 0 (Or.inl rfl)

/-- If some panel of a shot has an asset whose resolution fails, the shot's
media-object accumulation yields no list: either the early `None` (failed
`get_asset`) or an exception from an earlier panel. -/
theorem moShot_fail (ga : Option Int → Option Asset) (panels : List FPanel)
    (p : FPanel) (ref : AssetRef) (hp : p ∈ panels) (href : p.asset = some ref)
    (hga : ga ref.asset_id = none) :
    moShot ga panels = .ok none ∨ ∃ e, moShot ga panels = .error e := by
  induction panels with
  | nil => cases hp
  | cons q rest ih =>
    rcases List.mem_cons.mp hp with hq | hmem
    · subst hq
      have hmp : moPanel ga p = .ok none := by simp [moPanel, href, hga]
      left
      simp [moShot, hmp]
    · cases hmp : moPanel ga q with
      | error e => exact Or.inr ⟨e, by simp [moShot, hmp]⟩
      | ok o =>
        cases o with
        | none => exact Or.inl (by simp [moShot, hmp])
        | some pair =>
          obtain ⟨arts1, ths1⟩ := pair
          rcases ih hmem with h | ⟨e, h⟩
          · exact Or.inl (by simp [moShot, hmp, h])
          · exact Or.inr ⟨e, by simp [moShot, hmp, h]⟩

/-- Claim C6: if any single asset resolution inside `mo_per_shots` fails,
the whole operation fails — the result is `(None, False)` (or an exception
raised while reading an earlier asset's media objects) — and no partial
shot-to-media-objects mapping is ever returned to the caller. -/
theorem mo_per_shots_all_or_nothing_c6 (ga : Option Int → Option Asset)
    (ppm : List (String × List FPanel)) (shot : String) (panels : List FPanel)
    (p : FPanel) (ref : AssetRef) (hsp : (shot, panels) ∈ ppm) (hp : p ∈ panels)
    (href : p.asset = some ref) (hga : ga ref.asset_id = none) :
    mo_per_shots ga ppm = .ok (none, false) ∨
      ∃ e, mo_per_shots ga ppm = .error e := by
  induction ppm with
  | nil => cases hsp
  | cons hd rest ih =>
    obtain ⟨nm, pls⟩ := hd
    rcases List.mem_cons.mp hsp with heq | hmem
    · injection heq with h1 h2
      subst h1
      subst h2
      rcases moShot_fail ga panels p ref hp href hga with h | ⟨e, h⟩
      · exact Or.inl (by simp [mo_per_shots, h])
      · exact Or.inr ⟨e, by simp [mo_per_shots, h]⟩
    · cases hms : moShot ga pls with
      | error e => exact Or.inr ⟨e, by simp [mo_per_shots, hms]⟩
      | ok o =>
        cases o with
        | none => exact Or.inl (by simp [mo_per_shots, hms])
        | some pair =>
          obtain ⟨arts1, ths1⟩ := pair
          rcases ih hmem with h | ⟨e, h⟩
          · exact Or.inl (by simp [mo_per_shots, hms, h])
          · exact Or.inr ⟨e, by simp [mo_per_shots, hms, h]⟩

/-- Witness for claim C6 at a concrete input: a single shot with one panel
whose asset cannot be resolved. -/
theorem mo_per_shots_all_or_nothing_c6_witness :
    mo_per_shots gaNone [("S", [⟨some "d", 1, some 10, some 1, some ⟨some 5⟩, 0⟩])] =
        .ok (none, false) ∨
      ∃ e, mo_per_shots gaNone
        [("S", [⟨some "d", 1, some 10, some 1, some ⟨some 5⟩, 0⟩])] = .error e :=
  mo_per_shots_all_or_nothing_c6 gaNone
    [("S", [⟨some "d", 1, some 10, some 1, some ⟨some 5⟩, 0⟩])] "S"
    [⟨some "d", 1, some 10, some 1, some ⟨some 5⟩, 0⟩]
    ⟨some "d", 1, some 10, some 1, some ⟨some 5⟩, 0⟩ ⟨some 5⟩
    (by decide) (by decide) (by decide) rfl

/-- An MD5 hex digest is never the empty string (it has 32 characters), so
the `content_md5 != ''` test of `__fn_sign` always passes for hashed
content. -/
theorem md5hex_ne_empty (bs : List Nat) : md5hex bs ≠ "" := by
  simp only [md5hex, md5Bytes, wordLEBytes, List.cons_append]
  simp [bytesToHexChars, String.ext_iff]

/-- Claim C2 (amended): in the canonical string built by `__fn_sign`,
non-empty dict content contributes the hexadecimal MD5 digest of its
`json.dumps` serialization with Python's DEFAULT separators `', '` and
`': '` (not compact JSON) encoded as UTF-8, followed by a newline and the
content type; non-empty string content makes the call raise `TypeError`
(`hashlib.md5` applied to an unencoded `str`) instead of being hashed;
non-empty bytes content is hex-encoded before MD5 hashing; and empty
content contributes exactly two bare newlines, with no content hash and no
content-type line ever appearing. -/
theorem fn_sign_canonical_amended_c2 (method ct dt url : String) :
    (∀ kvs : List (String × JVal), kvs ≠ [] →
      fn_sign_raw method (.pdict kvs) ct dt url =
        .ok (asciiUpper method ++ "\n" ++
             md5hex (utf8Encode (jsonDumps (.jobj kvs))) ++ "\n" ++ ct ++ "\n" ++
             splitHead '.' dt ++ "Z" ++ "\n" ++ splitHead '?' url)) ∧
    (∀ s : String, s ≠ "" →
      fn_sign_raw method (.pstr s) ct dt url = .error .typeError) ∧
    (∀ bs : List Nat, bs ≠ [] →
      fn_sign_raw method (.pbytes bs) ct dt url =
        .ok (asciiUpper method ++ "\n" ++ md5hex (hexlify bs) ++ "\n" ++ ct ++ "\n" ++
             splitHead '.' dt ++ "Z" ++ "\n" ++ splitHead '?' url)) ∧
    (∀ c : PyContent, contentTruthy c = false →
      fn_sign_raw method c ct dt url =
        .ok (asciiUpper method ++ "\n" ++ "\n\n" ++
             splitHead '.' dt ++ "Z" ++ "\n" ++ splitHead '?' url)) := by
  refine ⟨?_, ?_, ?_, ?_⟩
  · intro kvs hk
    have hne : kvs.isEmpty = false := by simpa using hk
    simp [fn_sign_raw, contentMd5, contentTruthy, hne, md5hex_ne_empty]
  · intro s hs
    have hne : s.isEmpty = false := by
      cases h : s.isEmpty
      · rfl
      · exact absurd ((String.isEmpty_iff s).mp h) hs
    simp [fn_sign_raw, contentMd5, contentTruthy, hne]
  · intro bs hb
    have hne : bs.isEmpty = false := by simpa using hb
    simp [fn_sign_raw, contentMd5, contentTruthy, hne, md5hex_ne_empty]
  · intro c hc
    simp [fn_sign_raw, contentMd5, hc]

/-- Counterexample for claim C2 as stated: at the concrete non-empty dict
content `{"a": 1}`, the canonical string built by the source differs from
the one claimed by the spec (the source hashes `json.dumps` output with its
default space-bearing separators, not compact JSON, and the two MD5 digests
differ). -/
theorem fn_sign_compact_counterexample_c2 :
    fn_sign_raw "post" (.pdict [("a", .jnum 1)]) "application/json"
        "2020-01-02T03:04:05.123456" "/shows" ≠
      .ok (fn_sign_raw_specClaim "post" (.pdict [("a", .jnum 1)])
        "application/json" "2020-01-02T03:04:05.123456" "/shows") := by
  decide

/-- Witness for the amended claim C2 at concrete inputs, one per content
class. -/
theorem fn_sign_canonical_amended_c2_witness :
    fn_sign_raw "post" (.pdict [("a", .jnum 1)]) "application/json"
        "2020-01-02T03:04:05.123456" "/shows?page=2" =
      .ok (asciiUpper "post" ++ "\n" ++
           md5hex (utf8Encode (jsonDumps (.jobj [("a", .jnum 1)]))) ++ "\n" ++
           "application/json" ++ "\n" ++
           splitHead '.' "2020-01-02T03:04:05.123456" ++ "Z" ++ "\n" ++
           splitHead '?' "/shows?page=2") ∧
    fn_sign_raw "get" (.pstr "hello") "application/json" "2020-01-02T03:04:05"
        "/shows" = .error .typeError ∧
    fn_sign_raw "post" (.pbytes [0, 255]) "application/json" "2020-01-02T03:04:05"
        "/shows" =
      .ok (asciiUpper "post" ++ "\n" ++ md5hex (hexlify [0, 255]) ++ "\n" ++
           "application/json" ++ "\n" ++
           splitHead '.' "2020-01-02T03:04:05" ++ "Z" ++ "\n" ++
           splitHead '?' "/shows") ∧
    fn_sign_raw "post" .pynone "application/json" "2020-01-02T03:04:05" "/shows" =
      .ok (asciiUpper "post" ++ "\n" ++ "\n\n" ++
           splitHead '.' "2020-01-02T03:04:05" ++ "Z" ++ "\n" ++
           splitHead '?' "/shows") :=
  ⟨(fn_sign_canonical_amended_c2 "post" "application/json"
      "2020-01-02T03:04:05.123456" "/shows?page=2").1 _ (List.cons_ne_nil _ _),
   (fn_sign_canonical_amended_c2 "get" "application/json"
      "2020-01-02T03:04:05" "/shows").2.1 "hello" (by decide),
   (fn_sign_canonical_amended_c2 "post" "application/json"
      "2020-01-02T03:04:05" "/shows").2.2.1 [0, 255] (List.cons_ne_nil _ _),
   (fn_sign_canonical_amended_c2 "post" "application/json"
      "2020-01-02T03:04:05" "/shows").2.2.2 .pynone rfl⟩

/-- A concrete sample panel used by witnesses. -/
def samplePanel : Panel := ⟨some "d", 1, some 10, some 1, some ⟨some 5⟩⟩

/-- Witness for claim C1 at a concrete input: a credential expiring one hour
from now triggers the refresh. -/
theorem get_token_refresh_iff_c1_witness :
    (get_token ⟨none, none, none, some "k", some "s", some ((0 : Int) + hour)⟩ 0
      (.error .network)).2 = true :=
  (get_token_refresh_iff_c1 resetSession 0 (.error .network)).2.1 none none none "k" "s"

/-- Witness for claim C4 at a concrete input. -/
theorem gmpp_two_markers_assignment_c4_witness :
    get_markers_per_panels [(0, "A"), (3, "B")]
      [⟨none, 1, none, none, none⟩, ⟨none, 1, none, none, none⟩,
       ⟨none, 1, none, none, none⟩, ⟨none, 1, none, none, none⟩,
       ⟨none, 1, none, none, none⟩] =
      .ok [("A", [⟨none, 1, none, none, none, 0⟩, ⟨none, 1, none, none, none, 1⟩,
                  ⟨none, 1, none, none, none, 2⟩]),
           ("B", [⟨none, 1, none, none, none, 3⟩, ⟨none, 1, none, none, none, 4⟩])] :=
  gmpp_two_markers_assignment_c4 none none none none none none none none none none
    none none none none none none none none none none

/-- Witness for claim C8 at a concrete input. -/
theorem authenticate_failure_keeps_state_c8_witness :
    authenticate resetSession (some "h") (some "l") (some "p") (.error .network) =
      .ok (none, resetSession) :=
  authenticate_failure_keeps_state_c8 resetSession "h" "l" "p" .network

/-- Witness for claim C9 at a concrete input. -/
theorem format_panel_roundtrip_c9_witness :
    (format_panel_for_revision samplePanel 7).pos = 7 ∧
    (format_panel_for_revision samplePanel 7).dialogue = samplePanel.dialogue ∧
    (format_panel_for_revision samplePanel 7).duration = samplePanel.duration ∧
    (format_panel_for_revision samplePanel 7).id = samplePanel.panel_id ∧
    (format_panel_for_revision samplePanel 7).revision_number =
      samplePanel.revision_number ∧
    (format_panel_for_revision samplePanel 7).asset = samplePanel.asset :=
  format_panel_roundtrip_c9 samplePanel 7

/-- Witness for claim C10 at a concrete input. -/
theorem gmpp_empty_markers_c10_witness :
    get_markers_per_panels [] [samplePanel] = .error .indexError :=
  gmpp_empty_markers_c10 samplePanel []
